import Mathlib

/-!
# Webrecorder frontend containers: `NewPassword` and `TempUsage`

A shallow embedding of the two Redux containers

* `frontend/src/containers/NewPassword/NewPassword.js`
* `frontend/src/containers/TempUsage/TempUsage.js`

Each container is a state projector `mapStateToProps` and an action binder
`mapDispatchToProps`.  JavaScript values are a Lean inductive type, a JavaScript
call that may throw returns an `Except`, and a JavaScript call that may touch the
store is a state-passing function over the store.  A projector is a
state-passing function over the state object it is given.
-/

/-! ## JavaScript values -/

/-- JavaScript data values.  `arr` and `obj` are plain arrays and plain objects
(own data properties, in insertion order); `imap` is the persistent `Map` of the
Immutable library, given by its entries (key, value).  Numbers are integer valued.
Function values are not data: the callbacks of the containers are Lean
functions. -/
inductive JSValue where
  | undefined : JSValue
  | null : JSValue
  | bool (b : Bool) : JSValue
  | num (n : Int) : JSValue
  | str (s : String) : JSValue
  | arr (items : List JSValue) : JSValue
  | obj (props : List (String × JSValue)) : JSValue
  | imap (entries : List (JSValue × JSValue)) : JSValue

/-- What a JavaScript call throws: a `TypeError` raised by the language itself, or
an arbitrary value thrown by foreign code. -/
inductive Thrown where
  | typeError (msg : String) : Thrown
  | value (v : JSValue) : Thrown

/-- Own data property `name` of a plain object, `none` when the object has none. -/
def ownProp (name : String) : List (String × JSValue) → Option JSValue
  | [] => none
  | (k, v) :: rest => if k = name then some v else ownProp name rest

/-- Property read `v.name`, as the parameter pattern `({ app })` performs it:
reading from `undefined` or `null` throws a `TypeError`; a plain object yields its
own property or `undefined`; every other value yields `undefined` (built-in
properties such as `length` are not modelled, and `app` is not one). -/
def getProp (v : JSValue) (name : String) : Except Thrown JSValue :=
  match v with
  | .undefined => .error (.typeError "Cannot destructure property of undefined")
  | .null => .error (.typeError "Cannot destructure property of null")
  | .obj props => .ok ((ownProp name props).getD .undefined)
  | _ => .ok .undefined

/-! ## The Immutable library: `get` and `getIn`

The library is a dependency of the containers and its source is not part of the
fragment.  The containers use one method of it, `getIn`, on the `app` map. -/

namespace Immutable

/-- Modelled from the spec: the key lookup of an Immutable `Map`, whose source is
not part of the fragment.  The entry of the map under the string key `key` is the
value of the entry whose key is that string, wherever the entry stands; a key that
is not a string is not a string key. -/
def lookupKey (key : String) : List (JSValue × JSValue) → Option JSValue
  | [] => none
  | (.str k, v) :: rest => if k = key then some v else lookupKey key rest
  | _ :: rest => lookupKey key rest

/-- Modelled from the spec: one step of the nested key lookup, `none` when nothing
is set under the key.  A value that is not a `Map` has nothing under any key. -/
def get? (nested : JSValue) (key : String) : Option JSValue :=
  match nested with
  | .imap entries => lookupKey key entries
  | _ => none

/-- Modelled from the spec: the nested key lookup of `getIn`, whose source is not
part of the fragment, with `none` when the path is not set.  The empty path yields
the value itself, and a missing key ends the walk. -/
def getIn? : JSValue → List String → Option JSValue
  | nested, [] => some nested
  | nested, key :: rest =>
    match get? nested key with
    | some child => getIn? child rest
    | none => none

/-- Modelled from the spec: `collection.getIn(path)` of the Immutable library, whose
source is not part of the fragment: the value found by the nested key lookup, and
`undefined`, silently, when a field of the path is absent. -/
def getIn (collection : JSValue) (path : List String) : JSValue :=
  (getIn? collection path).getD .undefined

end Immutable

/-- Method call `recv.getIn(path)`.  A `Map` has the method; on `undefined` or
`null` the property read throws, and on any other value `recv.getIn` is not a
function and the call throws. -/
def callGetIn (recv : JSValue) (path : List String) : Except Thrown JSValue :=
  match recv with
  | .imap _ => .ok (Immutable.getIn recv path)
  | .undefined => .error (.typeError "Cannot read properties of undefined (reading getIn)")
  | .null => .error (.typeError "Cannot read properties of null (reading getIn)")
  | _ => .error (.typeError "app.getIn is not a function")

/-- Specification of path membership, independent of the walk: `HoldsAt c path v`
says that `c` holds value `v` at `path`, each step of the path being an entry of a
`Map` under a string key. -/
inductive HoldsAt : JSValue → List String → JSValue → Prop where
  | here (v : JSValue) : HoldsAt v [] v
  | mapStep (entries : List (JSValue × JSValue)) (key : String) (rest : List String)
      (child v : JSValue) :
      Immutable.lookupKey key entries = some child → HoldsAt child rest v →
      HoldsAt (.imap entries) (key :: rest) v

/-! ## The store and its dispatch capability -/

/-- An effectful JavaScript call over a world of type `σ`: from the world before
the call to its completion (a returned value, or a thrown one) and the world
after it. -/
abbrev Eff (σ : Type) (α : Type) : Type := σ → Except Thrown α × σ

/-- A dispatch capability `dispatch(action)`: any function of the action that may
change the world, return any value, or throw. -/
abbrev Dispatch (σ : Type) : Type := JSValue → Eff σ JSValue

/-- A callback prop: a JavaScript function called with a list of arguments. -/
abbrev Callback (σ : Type) : Type := List JSValue → Eff σ JSValue

/-- A record of callback props, as an object literal lists them. -/
abbrev Bindings (σ : Type) : Type := List (String × Callback σ)

/-- The action creators the containers import from `redux/modules/passwordReset`,
`redux/modules/userLogin` and `redux/modules/auth`.  Those modules are not part of
the fragment, so the creators are parameters: functions from the argument list of
the call to the action. -/
structure ActionCreators where
  setNewPassword : List JSValue → JSValue
  showModal : List JSValue → JSValue
  load : List JSValue → JSValue

/-- Argument `i` of a call, `undefined` when fewer arguments were passed. -/
def argAt (args : List JSValue) (i : Nat) : JSValue :=
  (args[i]?).getD .undefined

/-- A recording dispatch: behaves as `d` on the store and appends every action it
is called with to a log kept beside the store. -/
def spy {σ : Type} (d : Dispatch σ) : Dispatch (σ × List JSValue) :=
  fun action w => ((d action w.1).1, ((d action w.1).2, w.2 ++ [action]))

/-- Callback stored under `name` in a record of bindings. -/
def Bindings.find {σ : Type} (name : String) : Bindings σ → Option (Callback σ)
  | [] => none
  | (k, f) :: rest => if k = name then some f else Bindings.find name rest

/-- Call `props.name(...args)` as the wrapped component performs it: calling a
property the record does not have throws a `TypeError`. -/
def callProp {σ : Type} (props : Bindings σ) (name : String) (args : List JSValue) :
    Eff σ JSValue :=
  match props.find name with
  | some f => f args
  | none => fun w => (.error (.typeError "props callback is not a function"), w)

/-! ## Reads of the state object

The projectors are called with the state object of the store.  The object is the
world of the call: every step of a projector takes the object as it stands and
hands it on, so that what the call leaves of its input is part of its result. -/

/-- Property read `state.name` as a step over the state object: the read yields
the property and leaves the object as it is. -/
def readProp (name : String) : Eff JSValue JSValue :=
  fun state => (getProp state name, state)

/-- Method call `recv.getIn(path)` as a step over the state object: the lookup in
a persistent `Map` yields a value and leaves the object as it is. -/
def readGetIn (recv : JSValue) (path : List String) : Eff JSValue JSValue :=
  fun state => (callGetIn recv path, state)

/-! ## `NewPassword.js` -/

namespace NewPassword

/-- Source `mapStateToProps = ({ app }) => ({ errors: app.getIn([passwordReset, errors]),
success: app.getIn([passwordReset, setNew]) })`, as a call over the state object:
its completion and the state object after the call. -/
def mapStateToProps : Eff JSValue JSValue :=
  fun state =>
    match readProp "app" state with
    | (.error e, s1) => (.error e, s1)
    | (.ok app, s1) =>
      match readGetIn app ["passwordReset", "errors"] s1 with
      | (.error e, s2) => (.error e, s2)
      | (.ok errors, s2) =>
        match readGetIn app ["passwordReset", "setNew"] s2 with
        | (.error e, s3) => (.error e, s3)
        | (.ok success, s3) => (.ok (.obj [("errors", errors), ("success", success)]), s3)

/-- Source `mapDispatchToProps = (dispatch) => ({ setPassword: data =>
dispatch(setNewPassword(data)), toggleLogin: () => dispatch(showModal(true)) })`.
Building the record is itself a call in the world: it returns the record and
leaves the world as it found it. -/
def mapDispatchToProps {σ : Type} (ac : ActionCreators) (dispatch : Dispatch σ) :
    Eff σ (Bindings σ) :=
  fun w =>
    (.ok [("setPassword", fun args => dispatch (ac.setNewPassword [argAt args 0])),
          ("toggleLogin", fun _ => dispatch (ac.showModal [.bool true]))], w)

end NewPassword

/-! ## `TempUsage.js` -/

namespace TempUsage

/-- Source `mapStateToProps = ({ app }) => ({ tempUser: app.getIn([auth, user]) })`,
as a call over the state object: its completion and the state object after the
call. -/
def mapStateToProps : Eff JSValue JSValue :=
  fun state =>
    match readProp "app" state with
    | (.error e, s1) => (.error e, s1)
    | (.ok app, s1) =>
      match readGetIn app ["auth", "user"] s1 with
      | (.error e, s2) => (.error e, s2)
      | (.ok tempUser, s2) => (.ok (.obj [("tempUser", tempUser)]), s2)

/-- Source `mapDispatchToProps = (dispatch) => ({ hideModal: () =>
dispatch(showModal(false)), loadUsage: () => dispatch(load()) })`. -/
def mapDispatchToProps {σ : Type} (ac : ActionCreators) (dispatch : Dispatch σ) :
    Eff σ (Bindings σ) :=
  fun w =>
    (.ok [("hideModal", fun _ => dispatch (ac.showModal [.bool false])),
          ("loadUsage", fun _ => dispatch (ac.load []))], w)

end TempUsage

/-- Names of the callbacks of a record of bindings, in order. -/
def Bindings.names {σ : Type} (props : Bindings σ) : List String :=
  props.map Prod.fst

/-- Build the bindings in world `w0` with `mapDispatchToProps`, then call the
callback `name` with `args` in world `w`, as `connect` and the wrapped component
do. -/
def bindAndCall {σ : Type} (binder : Eff σ (Bindings σ)) (w0 : σ)
    (name : String) (args : List JSValue) : Eff σ JSValue :=
  match (binder w0).1 with
  | .ok props => callProp props name args
  | .error e => fun w => (.error e, w)

/-! ## A concrete store for evaluation -/

/-- Sample action creators: each returns a plain action object carrying its first
argument. -/
def sampleCreators : ActionCreators where
  setNewPassword := fun args => .obj [("type", .str "SET_NEW"), ("data", argAt args 0)]
  showModal := fun args => .obj [("type", .str "SHOW_MODAL"), ("bool", argAt args 0)]
  load := fun _ => .obj [("type", .str "LOAD")]

/-- The dispatch of a plain Redux store, as far as its result goes: it returns the
action it was given.  The world is trivial. -/
def echoDispatch : Dispatch Unit :=
  fun action u => (.ok action, u)

/-! ## The walk of `getIn` against the specification of path membership -/

theorem getIn?_of_holdsAt {c : JSValue} {path : List String} {v : JSValue}
    (h : HoldsAt c path v) : Immutable.getIn? c path = some v := by
  induction h with
  | here v => rfl
  | mapStep entries key rest child v hk _ ih =>
    simp [Immutable.getIn?, Immutable.get?, hk, ih]

theorem holdsAt_of_getIn? : ∀ (path : List String) (c v : JSValue),
    Immutable.getIn? c path = some v → HoldsAt c path v := by
  intro path
  induction path with
  | nil =>
    intro c v h
    simp [Immutable.getIn?] at h
    subst h
    exact HoldsAt.here c
  | cons key rest ih =>
    intro c v h
    cases c with
    | imap entries =>
      simp only [Immutable.getIn?, Immutable.get?] at h
      cases hk : Immutable.lookupKey key entries with
      | none => simp [hk] at h
      | some child =>
        simp only [hk] at h
        exact HoldsAt.mapStep entries key rest child v hk (ih child v h)
    | undefined => simp [Immutable.getIn?, Immutable.get?] at h
    | null => simp [Immutable.getIn?, Immutable.get?] at h
    | bool b => simp [Immutable.getIn?, Immutable.get?] at h
    | num n => simp [Immutable.getIn?, Immutable.get?] at h
    | str s => simp [Immutable.getIn?, Immutable.get?] at h
    | arr items => simp [Immutable.getIn?, Immutable.get?] at h
    | obj props => simp [Immutable.getIn?, Immutable.get?] at h

theorem holdsAt_iff_getIn? (c : JSValue) (path : List String) (v : JSValue) :
    HoldsAt c path v ↔ Immutable.getIn? c path = some v :=
  ⟨getIn?_of_holdsAt, holdsAt_of_getIn? path c v⟩

theorem getIn_of_holdsAt {c : JSValue} {path : List String} {v : JSValue}
    (h : HoldsAt c path v) : Immutable.getIn c path = v := by
  simp [Immutable.getIn, getIn?_of_holdsAt h]

theorem getIn_of_absent {c : JSValue} {path : List String}
    (h : ∀ v, ¬ HoldsAt c path v) : Immutable.getIn c path = .undefined := by
  cases hg : Immutable.getIn? c path with
  | none => simp [Immutable.getIn, hg]
  | some v => exact absurd (holdsAt_of_getIn? path c v hg) (h v)

theorem callGetIn_of_holdsAt {app : JSValue} {key : String} {rest : List String}
    {v : JSValue} (h : HoldsAt app (key :: rest) v) :
    callGetIn app (key :: rest) = .ok v := by
  have hv := getIn_of_holdsAt h
  cases h with
  | mapStep entries _ _ child _ hk hr => simp [callGetIn, hv]

/-! ## State projectors -/

theorem NewPassword.newPassword_state_kept (state : JSValue) :
    (NewPassword.mapStateToProps state).2 = state := by
  simp only [NewPassword.mapStateToProps, readProp, readGetIn]
  cases getProp state "app" with
  | error e => rfl
  | ok app =>
    dsimp only
    cases callGetIn app ["passwordReset", "errors"] with
    | error e => rfl
    | ok errors =>
      dsimp only
      cases callGetIn app ["passwordReset", "setNew"] with
      | error e => rfl
      | ok success => rfl

theorem TempUsage.tempUsage_state_kept (state : JSValue) :
    (TempUsage.mapStateToProps state).2 = state := by
  simp only [TempUsage.mapStateToProps, readProp, readGetIn]
  cases getProp state "app" with
  | error e => rfl
  | ok app =>
    dsimp only
    cases callGetIn app ["auth", "user"] with
    | error e => rfl
    | ok tempUser => rfl

/-- Claim C1: for every global state whose `app` holds `E` at the path
passwordReset, errors and `S` at the path passwordReset, setNew, the projector of
`NewPassword` returns the plain object with exactly the two properties `errors: E`
and `success: S`. -/
theorem NewPassword.newPassword_props_exact (state app E S : JSValue)
    (happ : getProp state "app" = .ok app)
    (hE : HoldsAt app ["passwordReset", "errors"] E)
    (hS : HoldsAt app ["passwordReset", "setNew"] S) :
    (NewPassword.mapStateToProps state).1
      = .ok (.obj [("errors", E), ("success", S)]) := by
  simp [NewPassword.mapStateToProps, readProp, readGetIn, happ, callGetIn_of_holdsAt hE,
    callGetIn_of_holdsAt hS]

/-- Scenario of claim C1: errors is the array holding the string weak password and
setNew is false. -/
theorem NewPassword.newPassword_props_exact_witness :
    (NewPassword.mapStateToProps
      (.obj [("app", .imap [(.str "passwordReset",
        .imap [(.str "errors", .arr [.str "weak password"]),
               (.str "setNew", .bool false)])])])).1
      = .ok (.obj [("errors", .arr [.str "weak password"]), ("success", .bool false)]) :=
  NewPassword.newPassword_props_exact _
    (.imap [(.str "passwordReset",
      .imap [(.str "errors", .arr [.str "weak password"]), (.str "setNew", .bool false)])])
    _ _ (by simp [getProp, ownProp])
    (HoldsAt.mapStep _ _ _
      (.imap [(.str "errors", .arr [.str "weak password"]), (.str "setNew", .bool false)]) _
      (by simp [Immutable.lookupKey])
      (HoldsAt.mapStep _ _ _ _ _ (by simp [Immutable.lookupKey]) (HoldsAt.here _)))
    (HoldsAt.mapStep _ _ _
      (.imap [(.str "errors", .arr [.str "weak password"]), (.str "setNew", .bool false)]) _
      (by simp [Immutable.lookupKey])
      (HoldsAt.mapStep _ _ _ _ _ (by simp [Immutable.lookupKey]) (HoldsAt.here _)))

/-- Claim C2: for every global state whose `app` holds `U` at the path auth, user
(`U` may be `null`), the projector of `TempUsage` returns the plain object with
exactly the one property `tempUser: U`. -/
theorem TempUsage.tempUsage_props_exact (state app U : JSValue)
    (happ : getProp state "app" = .ok app)
    (hU : HoldsAt app ["auth", "user"] U) :
    (TempUsage.mapStateToProps state).1 = .ok (.obj [("tempUser", U)]) := by
  simp [TempUsage.mapStateToProps, readProp, readGetIn, happ, callGetIn_of_holdsAt hU]

/-- Scenario of claim C2: auth.user is null. -/
theorem TempUsage.tempUsage_props_exact_witness :
    (TempUsage.mapStateToProps
      (.obj [("app", .imap [(.str "auth", .imap [(.str "user", .null)])])])).1
      = .ok (.obj [("tempUser", .null)]) :=
  TempUsage.tempUsage_props_exact _
    (.imap [(.str "auth", .imap [(.str "user", .null)])]) _
    (by simp [getProp, ownProp])
    (HoldsAt.mapStep _ _ _ (.imap [(.str "user", .null)]) _
      (by simp [Immutable.lookupKey])
      (HoldsAt.mapStep _ _ _ _ _ (by simp [Immutable.lookupKey]) (HoldsAt.here _)))

/-- Claim C8: over every global state whose `app` is a `Map`, both projectors
return their record without throwing, and a prop whose path holds no value in
`app` is `undefined`. -/
theorem mapStateToProps_total_on_app_map (state : JSValue)
    (entries : List (JSValue × JSValue))
    (happ : getProp state "app" = .ok (.imap entries)) :
    (∃ e s, (NewPassword.mapStateToProps state).1
        = .ok (.obj [("errors", e), ("success", s)])
      ∧ ((∀ v, ¬ HoldsAt (.imap entries) ["passwordReset", "errors"] v) → e = .undefined)
      ∧ ((∀ v, ¬ HoldsAt (.imap entries) ["passwordReset", "setNew"] v) → s = .undefined))
    ∧ (∃ u, (TempUsage.mapStateToProps state).1 = .ok (.obj [("tempUser", u)])
      ∧ ((∀ v, ¬ HoldsAt (.imap entries) ["auth", "user"] v) → u = .undefined)) := by
  refine ⟨⟨Immutable.getIn (.imap entries) ["passwordReset", "errors"],
    Immutable.getIn (.imap entries) ["passwordReset", "setNew"], ?_, getIn_of_absent,
    getIn_of_absent⟩,
    ⟨Immutable.getIn (.imap entries) ["auth", "user"], ?_, getIn_of_absent⟩⟩
  · simp [NewPassword.mapStateToProps, readProp, readGetIn, happ, callGetIn]
  · simp [TempUsage.mapStateToProps, readProp, readGetIn, happ, callGetIn]

/-- Instance of claim C8: a state whose `app` is the empty `Map` has none of the
three paths, and every prop is `undefined`. -/
theorem mapStateToProps_total_on_app_map_witness :
    (∀ path v, ¬ HoldsAt (.imap []) ("passwordReset" :: path) v)
    ∧ (∀ path v, ¬ HoldsAt (.imap []) ("auth" :: path) v)
    ∧ (NewPassword.mapStateToProps (.obj [("app", .imap [])])).1
        = .ok (.obj [("errors", .undefined), ("success", .undefined)])
    ∧ (TempUsage.mapStateToProps (.obj [("app", .imap [])])).1
        = .ok (.obj [("tempUser", .undefined)]) := by
  have habs : ∀ key path v, ¬ HoldsAt (.imap []) (key :: path) v := by
    intro key path v h
    cases h with
    | mapStep _ _ _ child _ hk _ => simp [Immutable.lookupKey] at hk
  obtain ⟨⟨e, s, hnp, he, hs⟩, ⟨u, htu, hu⟩⟩ :=
    mapStateToProps_total_on_app_map (.obj [("app", .imap [])]) []
      (by simp [getProp, ownProp])
  refine ⟨habs _, habs _, ?_, ?_⟩
  · rw [hnp, he (habs _ _), hs (habs _ _)]
  · rw [htu, hu (habs _ _)]

/-- Claim C9: the projected props depend on the global state only through the
paths read, and the projectors leave the state they are given as it was.  Two
states whose `app` maps give the same values at passwordReset, errors and
passwordReset, setNew have the same `NewPassword` props, and two states whose
`app` maps give the same value at auth, user have the same `TempUsage` props,
whatever else the states hold; and for every state, whether the call returns or
throws, the state object after the call of either projector is the state object
before it. -/
theorem mapStateToProps_depends_only_on_paths (s1 s2 : JSValue)
    (e1 e2 : List (JSValue × JSValue))
    (h1 : getProp s1 "app" = .ok (.imap e1)) (h2 : getProp s2 "app" = .ok (.imap e2)) :
    ((Immutable.getIn (.imap e1) ["passwordReset", "errors"]
        = Immutable.getIn (.imap e2) ["passwordReset", "errors"] →
      Immutable.getIn (.imap e1) ["passwordReset", "setNew"]
        = Immutable.getIn (.imap e2) ["passwordReset", "setNew"] →
      (NewPassword.mapStateToProps s1).1 = (NewPassword.mapStateToProps s2).1))
    ∧ (Immutable.getIn (.imap e1) ["auth", "user"]
        = Immutable.getIn (.imap e2) ["auth", "user"] →
      (TempUsage.mapStateToProps s1).1 = (TempUsage.mapStateToProps s2).1)
    ∧ (∀ state : JSValue, (NewPassword.mapStateToProps state).2 = state
        ∧ (TempUsage.mapStateToProps state).2 = state) := by
  refine ⟨?_, ?_, fun state =>
    ⟨NewPassword.newPassword_state_kept state, TempUsage.tempUsage_state_kept state⟩⟩
  · intro he hs
    simp [NewPassword.mapStateToProps, readProp, readGetIn, h1, h2, callGetIn, he, hs]
  · intro hu
    simp [TempUsage.mapStateToProps, readProp, readGetIn, h1, h2, callGetIn, hu]

/-- Instance of claim C9: two states with the same password-reset slice and
different users have the same `NewPassword` props, two states with the same user
and different password-reset slices have the same `TempUsage` props, and the
state is the same after either call, also for a state without `app`, on which
the call throws. -/
theorem mapStateToProps_depends_only_on_paths_witness :
    (NewPassword.mapStateToProps
        (.obj [("app", .imap [(.str "passwordReset", .imap [(.str "setNew", .bool true)]),
                              (.str "auth", .imap [(.str "user", .str "alice")])])])).1
      = (NewPassword.mapStateToProps
        (.obj [("app", .imap [(.str "auth", .imap [(.str "user", .null)]),
                              (.str "passwordReset", .imap [(.str "setNew", .bool true)])]),
               ("router", .null)])).1
    ∧ (TempUsage.mapStateToProps
        (.obj [("app", .imap [(.str "passwordReset", .imap [(.str "setNew", .bool true)]),
                              (.str "auth", .imap [(.str "user", .str "alice")])])])).1
      = (TempUsage.mapStateToProps
        (.obj [("app", .imap [(.str "auth", .imap [(.str "user", .str "alice")]),
                              (.str "passwordReset", .imap [(.str "errors", .str "bad")])])])).1
    ∧ (NewPassword.mapStateToProps
        (.obj [("app", .imap [(.str "passwordReset", .imap [(.str "setNew", .bool true)]),
                              (.str "auth", .imap [(.str "user", .str "alice")])])])).2
      = .obj [("app", .imap [(.str "passwordReset", .imap [(.str "setNew", .bool true)]),
                             (.str "auth", .imap [(.str "user", .str "alice")])])]
    ∧ (TempUsage.mapStateToProps (.obj [("router", .null)])).2
      = .obj [("router", .null)] :=
  ⟨(mapStateToProps_depends_only_on_paths _ _
      [(.str "passwordReset", .imap [(.str "setNew", .bool true)]),
       (.str "auth", .imap [(.str "user", .str "alice")])]
      [(.str "auth", .imap [(.str "user", .null)]),
       (.str "passwordReset", .imap [(.str "setNew", .bool true)])]
      (by simp [getProp, ownProp]) (by simp [getProp, ownProp])).1
      (by simp [Immutable.getIn, Immutable.getIn?, Immutable.get?, Immutable.lookupKey])
      (by simp [Immutable.getIn, Immutable.getIn?, Immutable.get?, Immutable.lookupKey]),
   (mapStateToProps_depends_only_on_paths _ _
      [(.str "passwordReset", .imap [(.str "setNew", .bool true)]),
       (.str "auth", .imap [(.str "user", .str "alice")])]
      [(.str "auth", .imap [(.str "user", .str "alice")]),
       (.str "passwordReset", .imap [(.str "errors", .str "bad")])]
      (by simp [getProp, ownProp]) (by simp [getProp, ownProp])).2.1
      (by simp [Immutable.getIn, Immutable.getIn?, Immutable.get?, Immutable.lookupKey]),
   ((mapStateToProps_depends_only_on_paths
      (.obj [("app", .imap [])]) (.obj [("app", .imap [])]) [] []
      (by simp [getProp, ownProp]) (by simp [getProp, ownProp])).2.2 _).1,
   ((mapStateToProps_depends_only_on_paths
      (.obj [("app", .imap [])]) (.obj [("app", .imap [])]) [] []
      (by simp [getProp, ownProp]) (by simp [getProp, ownProp])).2.2 _).2⟩

/-! ## Action binders -/

/-- Claim C3: for every dispatch capability and every `data`, calling
`setPassword(data)` is one call of dispatch with the action `setNewPassword(data)`
and nothing else: the world after the callback is the world after that one call,
and a recording dispatch has logged exactly that action, once. -/
theorem NewPassword.setPassword_dispatches_once (ac : ActionCreators) (σ : Type)
    (dispatch : Dispatch σ) (data : JSValue) (w0 w : σ) (log0 log : List JSValue) :
    (bindAndCall (NewPassword.mapDispatchToProps ac dispatch) w0 "setPassword" [data] w).2
        = (dispatch (ac.setNewPassword [data]) w).2
    ∧ (bindAndCall (NewPassword.mapDispatchToProps ac (spy dispatch)) (w0, log0)
          "setPassword" [data] (w, log)).2
        = ((dispatch (ac.setNewPassword [data]) w).2, log ++ [ac.setNewPassword [data]]) := by
  simp [bindAndCall, NewPassword.mapDispatchToProps, callProp, Bindings.find, argAt, spy]

/-- Claim C4: for every dispatch capability, calling `toggleLogin()` is one call of
dispatch with the action `showModal(true)` and nothing else. -/
theorem NewPassword.toggleLogin_dispatches_once (ac : ActionCreators) (σ : Type)
    (dispatch : Dispatch σ) (w0 w : σ) (log0 log : List JSValue) :
    (bindAndCall (NewPassword.mapDispatchToProps ac dispatch) w0 "toggleLogin" [] w).2
        = (dispatch (ac.showModal [.bool true]) w).2
    ∧ (bindAndCall (NewPassword.mapDispatchToProps ac (spy dispatch)) (w0, log0)
          "toggleLogin" [] (w, log)).2
        = ((dispatch (ac.showModal [.bool true]) w).2, log ++ [ac.showModal [.bool true]]) := by
  simp [bindAndCall, NewPassword.mapDispatchToProps, callProp, Bindings.find, spy]

/-- Claim C5: for every dispatch capability, calling `hideModal()` is one call of
dispatch with the action `showModal(false)` and nothing else. -/
theorem TempUsage.hideModal_dispatches_once (ac : ActionCreators) (σ : Type)
    (dispatch : Dispatch σ) (w0 w : σ) (log0 log : List JSValue) :
    (bindAndCall (TempUsage.mapDispatchToProps ac dispatch) w0 "hideModal" [] w).2
        = (dispatch (ac.showModal [.bool false]) w).2
    ∧ (bindAndCall (TempUsage.mapDispatchToProps ac (spy dispatch)) (w0, log0)
          "hideModal" [] (w, log)).2
        = ((dispatch (ac.showModal [.bool false]) w).2,
            log ++ [ac.showModal [.bool false]]) := by
  simp [bindAndCall, TempUsage.mapDispatchToProps, callProp, Bindings.find, spy]

/-- Claim C6: for every dispatch capability, calling `loadUsage()` is one call of
dispatch with the action `load()`, the creator being called with no argument, and
nothing else. -/
theorem TempUsage.loadUsage_dispatches_once (ac : ActionCreators) (σ : Type)
    (dispatch : Dispatch σ) (w0 w : σ) (log0 log : List JSValue) :
    (bindAndCall (TempUsage.mapDispatchToProps ac dispatch) w0 "loadUsage" [] w).2
        = (dispatch (ac.load []) w).2
    ∧ (bindAndCall (TempUsage.mapDispatchToProps ac (spy dispatch)) (w0, log0)
          "loadUsage" [] (w, log)).2
        = ((dispatch (ac.load []) w).2, log ++ [ac.load []]) := by
  simp [bindAndCall, TempUsage.mapDispatchToProps, callProp, Bindings.find, spy]

/-- Claim C7 as stated fails: with a dispatch that returns the action it was given,
as the dispatch of a Redux store does, `setPassword(data)` and `toggleLogin()`
return that action and not `undefined`. -/
theorem NewPassword.callbacks_return_undefined_counterexample :
    (bindAndCall (NewPassword.mapDispatchToProps sampleCreators echoDispatch) ()
        "setPassword" [.str "secret"] ()).1
      = .ok (.obj [("type", .str "SET_NEW"), ("data", .str "secret")])
    ∧ (bindAndCall (NewPassword.mapDispatchToProps sampleCreators echoDispatch) ()
        "setPassword" [.str "secret"] ()).1 ≠ .ok .undefined
    ∧ (bindAndCall (NewPassword.mapDispatchToProps sampleCreators echoDispatch) ()
        "toggleLogin" [] ()).1
      = .ok (.obj [("type", .str "SHOW_MODAL"), ("bool", .bool true)])
    ∧ (bindAndCall (NewPassword.mapDispatchToProps sampleCreators echoDispatch) ()
        "toggleLogin" [] ()).1 ≠ .ok .undefined := by
  simp [bindAndCall, NewPassword.mapDispatchToProps, callProp, Bindings.find, argAt,
    sampleCreators, echoDispatch]

/-- Claim C7 as amended: for every dispatch capability and every `data`,
`setPassword(data)` and `toggleLogin()` complete exactly as their one call of
dispatch completes: they return the value dispatch returned (and throw what it
threw). -/
theorem NewPassword.callbacks_return_dispatch_result (ac : ActionCreators) (σ : Type)
    (dispatch : Dispatch σ) (data : JSValue) (w0 w : σ) :
    (bindAndCall (NewPassword.mapDispatchToProps ac dispatch) w0 "setPassword" [data] w).1
        = (dispatch (ac.setNewPassword [data]) w).1
    ∧ (bindAndCall (NewPassword.mapDispatchToProps ac dispatch) w0 "toggleLogin" [] w).1
        = (dispatch (ac.showModal [.bool true]) w).1 := by
  simp [bindAndCall, NewPassword.mapDispatchToProps, callProp, Bindings.find, argAt]

/-- Claim C10: building the bindings dispatches nothing.  For every dispatch
capability, `mapDispatchToProps` of `NewPassword` and of `TempUsage` each returns a
record of exactly two callbacks (`setPassword` and `toggleLogin`, respectively
`hideModal` and `loadUsage`) and leaves the world as it was: a recording dispatch
has logged no action, so an action reaches dispatch only when a callback is
called. -/
theorem mapDispatchToProps_dispatches_nothing (ac : ActionCreators) (σ : Type)
    (dispatch : Dispatch σ) (w : σ) (log : List JSValue) :
    (∃ props, NewPassword.mapDispatchToProps ac (spy dispatch) (w, log) = (.ok props, (w, log))
      ∧ Bindings.names props = ["setPassword", "toggleLogin"])
    ∧ (∃ props, TempUsage.mapDispatchToProps ac (spy dispatch) (w, log) = (.ok props, (w, log))
      ∧ Bindings.names props = ["hideModal", "loadUsage"])
    ∧ (NewPassword.mapDispatchToProps ac dispatch w).2 = w
    ∧ (TempUsage.mapDispatchToProps ac dispatch w).2 = w :=
  ⟨⟨_, rfl, rfl⟩, ⟨_, rfl, rfl⟩, rfl, rfl⟩
